import Mathlib

/-!
Shallow embedding of the Car-Website backend (Node/Express + Mongoose) and
proofs about its specified behaviour.

Sources embedded here:
- src/config/constants.js          (status codes, roles, error messages)
- src/controllers/carController.js (create/list/get/update/delete listing)
- src/controllers/authController.js (register, login)
- src/utils/validators.js          (Joi schemas; unnamed part_001)
- src/utils/jwtUtils.js            (generateToken / verifyToken; unnamed part_002)
- src/middleware/authMiddleware.js (authenticate; unnamed part_004)

The Mongo store is modelled as a list of documents; single-document
operations (findById, findByIdAndUpdate, findByIdAndDelete) are single
steps on that list.  Object ids are strings (the code compares
`car.owner.toString() !== req.user.userId` on strings).  Numeric fields
are naturals.
-/

namespace CarWebsite

/-- HTTP status codes from src/config/constants.js (HTTP_STATUS). -/
def HTTP_OK : Nat := 200

def HTTP_CREATED : Nat := 201

def HTTP_BAD_REQUEST : Nat := 400

def HTTP_UNAUTHORIZED : Nat := 401

def HTTP_FORBIDDEN : Nat := 403

def HTTP_NOT_FOUND : Nat := 404

def HTTP_CONFLICT : Nat := 409

/-- Role strings from src/config/constants.js (ROLES). -/
def ROLE_ADMIN : String := "admin"

def ROLE_USER : String := "user"

/-- Error messages from src/config/constants.js (ERROR_MESSAGES). -/
def MSG_INVALID_CREDENTIALS : String := "Invalid email or password"

def MSG_USER_ALREADY_EXISTS : String := "User already exists"

def MSG_UNAUTHORIZED_ACCESS : String := "Unauthorized access"

def MSG_INVALID_TOKEN : String := "Invalid or expired token"

def MSG_CAR_NOT_FOUND : String := "Car listing not found"

def MSG_VALIDATION_ERROR : String := "Validation error"

/-- Car document, from the Mongoose car schema (models/Car.js, appended in
src/routes/carRoutes.js).  Fields not touched by any claim (images, rating,
reviews) are omitted; `views` defaults to 0 and `status` to "available" at
creation. -/
structure Car where
  id : String
  title : String
  description : String
  brand : String
  model : String
  year : Nat
  price : Nat
  mileage : Nat
  transmission : String
  fuelType : String
  color : Option String
  status : String
  owner : String
  features : List String
  views : Nat
  createdAt : Nat
  updatedAt : Nat
  deriving Repr, DecidableEq

/-- The car collection: a list of car documents. -/
abbrev CarStore := List Car

/-- Embeds `Car.findById(id)`: the first document whose id matches. -/
def findById (store : CarStore) (id : String) : Option Car :=
  store.find? (fun c => c.id == id)

/-- Request body for create/update listing, after JSON parsing.  The fields
are those of the Joi car schema (src/utils/validators.js,
validateCarListing); `owner` stands for a request-supplied `owner` key,
which is NOT part of that schema (`none` = key absent). -/
structure CarBody where
  title : String
  description : String
  brand : String
  model : String
  year : Nat
  price : Nat
  mileage : Nat
  transmission : String
  fuelType : String
  color : Option String
  features : List String
  owner : Option String
  deriving Repr, DecidableEq

/-- Embeds the update document `{ ...req.body, updatedAt: Date.now() }` as
applied by `Car.findByIdAndUpdate` in updateCarListing
(src/controllers/carController.js lines 116-120): body keys overwrite the
stored fields, `updatedAt` is refreshed, everything else (id, views,
createdAt) is kept.  A spread body carrying an `owner` key would overwrite
the owner. -/
def applyBody (b : CarBody) (now : Nat) (c : Car) : Car :=
  { c with
    title := b.title
    description := b.description
    brand := b.brand
    model := b.model
    year := b.year
    price := b.price
    mileage := b.mileage
    transmission := b.transmission
    fuelType := b.fuelType
    color := b.color
    features := b.features
    owner := b.owner.getD c.owner
    updatedAt := now }

/-- Response of a single-car endpoint: status code, success flag, optional
message and optional car payload. -/
structure CarResponse where
  status : Nat
  success : Bool
  message : Option String
  car : Option Car
  deriving Repr, DecidableEq

/-- Embeds updateCarListing (src/controllers/carController.js lines
97-130): findById, 404 if missing, 403 unless the owner matches the caller
or the caller is admin, otherwise findByIdAndUpdate with the body and a
fresh updatedAt, returning the updated document.  Returns the response and
the resulting store. -/
def updateCarListing (store : CarStore) (userId role : String) (id : String)
    (body : CarBody) (now : Nat) : CarResponse × CarStore :=
  match findById store id with
  | none =>
      ({ status := HTTP_NOT_FOUND, success := false,
         message := some MSG_CAR_NOT_FOUND, car := none }, store)
  | some car =>
      if car.owner != userId && role != ROLE_ADMIN then
        ({ status := HTTP_FORBIDDEN, success := false,
           message := some "You can only update your own car listings",
           car := none }, store)
      else
        let store' := store.map (fun c => if c.id == id then applyBody body now c else c)
        ({ status := HTTP_OK, success := true,
           message := some "Car listing updated successfully",
           car := findById store' id }, store')

/-- Embeds deleteCarListing (src/controllers/carController.js lines
133-161): findById, 404 if missing, 403 unless owner-or-admin, otherwise
findByIdAndDelete. -/
def deleteCarListing (store : CarStore) (userId role : String) (id : String) :
    CarResponse × CarStore :=
  match findById store id with
  | none =>
      ({ status := HTTP_NOT_FOUND, success := false,
         message := some MSG_CAR_NOT_FOUND, car := none }, store)
  | some car =>
      if car.owner != userId && role != ROLE_ADMIN then
        ({ status := HTTP_FORBIDDEN, success := false,
           message := some "You can only delete your own car listings",
           car := none }, store)
      else
        ({ status := HTTP_OK, success := true,
           message := some "Car listing deleted successfully", car := none },
         store.filter (fun c => c.id != id))

/-- Embeds getCarListingById (src/controllers/carController.js lines
72-94): `Car.findByIdAndUpdate` with the Mongo increment-by-1 update
operator on `views` and `new: true` is an atomic increment-and-return on
the matched document, returning the incremented document, or null (then
404) when the id does not resolve. -/
def getCarListingById (store : CarStore) (id : String) : CarResponse × CarStore :=
  match findById store id with
  | none =>
      ({ status := HTTP_NOT_FOUND, success := false,
         message := some MSG_CAR_NOT_FOUND, car := none }, store)
  | some car =>
      ({ status := HTTP_OK, success := true, message := none,
         car := some { car with views := car.views + 1 } },
       store.map (fun c => if c.id == id then { c with views := c.views + 1 } else c))

/-- Iterates the single-listing fetch n times, threading the store. -/
def viewListingN (id : String) : Nat → CarStore → CarStore
  | 0, store => store
  | n + 1, store => viewListingN id n (getCarListingById store id).2

/-- Embeds validateCarListing (src/utils/validators.js lines 29-50), the
Joi schema run by the validateCar middleware before create and update.
Joi object schemas reject keys not in the schema, so a request-supplied
`owner` key fails validation; required string fields must be non-empty;
year is bounded by 1900 and currentYear + 1; price and mileage are
naturals here so their non-negativity constraints hold by type. -/
def validateCarListing (currentYear : Nat) (b : CarBody) : Bool :=
  b.owner.isNone
    && b.title != "" && decide (b.title.length ≤ 100)
    && b.description != ""
    && b.brand != ""
    && b.model != ""
    && decide (1900 ≤ b.year) && decide (b.year ≤ currentYear + 1)
    && (b.transmission == "manual" || b.transmission == "automatic")
    && (b.fuelType == "petrol" || b.fuelType == "diesel"
          || b.fuelType == "electric" || b.fuelType == "hybrid")

/-- The document built by createCarListing (src/controllers/carController.js
lines 5-24): `{ ...req.body, owner: req.user.userId }` — the `owner` key is
written after the body spread, so the stored owner is always the
authenticated caller's id, whatever the body carried.  Schema defaults:
status "available", views 0, both timestamps set at creation. -/
def newCarFrom (b : CarBody) (userId freshId : String) (now : Nat) : Car :=
  { id := freshId
    title := b.title
    description := b.description
    brand := b.brand
    model := b.model
    year := b.year
    price := b.price
    mileage := b.mileage
    transmission := b.transmission
    fuelType := b.fuelType
    color := b.color
    status := "available"
    owner := userId
    features := b.features
    views := 0
    createdAt := now
    updatedAt := now }

/-- Embeds the createCarListing controller (src/controllers/carController.js
lines 5-24): build the document with owner forced to the caller, save it,
respond 201 with the created car. -/
def createCarListing (store : CarStore) (userId : String) (body : CarBody)
    (freshId : String) (now : Nat) : CarResponse × CarStore :=
  let car := newCarFrom body userId freshId now
  ({ status := HTTP_CREATED, success := true,
     message := some "Car listing created successfully", car := some car },
   store ++ [car])

/-- The POST /cars route stack (src/routes/carRoutes.js line 20):
authenticate, then validateCar (a 400 with MSG_VALIDATION_ERROR when the
Joi schema rejects the body, src/middleware/validationMiddleware.js lines
43-59), then the createCarListing controller. -/
def createListingRoute (currentYear : Nat) (store : CarStore) (userId : String)
    (body : CarBody) (freshId : String) (now : Nat) : CarResponse × CarStore :=
  if validateCarListing currentYear body then
    createCarListing store userId body freshId now
  else
    ({ status := HTTP_BAD_REQUEST, success := false,
       message := some MSG_VALIDATION_ERROR, car := none }, store)

/-- User document, from the Mongoose user schema (models/User.js is not
under src; its shape is given by the schema listing in the project report
appended to src/routes/carRoutes.js and by spec section 3).  `password`
holds the stored hash. -/
structure User where
  id : String
  username : String
  email : String
  password : String
  role : String
  deriving Repr, DecidableEq

/-- Public view of a user, as serialized outward (password never
included). -/
structure UserView where
  id : String
  username : String
  email : String
  role : String
  deriving Repr, DecidableEq

def toView (u : User) : UserView :=
  { id := u.id, username := u.username, email := u.email, role := u.role }

/-- Response of an auth endpoint: status, success flag, message, issued
token payload (generateToken(user.id, user.role) is modelled by the signed
pair it embeds), and the user view. -/
structure AuthResponse where
  status : Nat
  success : Bool
  message : String
  token : Option (String × String)
  user : Option UserView
  deriving Repr, DecidableEq

/-- Modelled from the spec: models/User.js is not under src.  Per spec 4.6
(Register: "hash password, persist user with default role") and spec 3
(role default `user`), saving a new user hashes its plaintext password with
the injected hasher and stores role ROLE_USER. -/
def saveNewUser (hash : String → String) (users : List User)
    (freshId username email password : String) : User × List User :=
  let u : User := { id := freshId, username := username, email := email,
                    password := hash password, role := ROLE_USER }
  (u, users ++ [u])

/-- Embeds the register controller (src/controllers/authController.js lines
7-49): findOne on email OR username, 409 Conflict if a user exists,
otherwise save the new user (hashing and default role in the model, see
saveNewUser), issue a token and respond 201 with token and user view. -/
def register (hash : String → String) (users : List User)
    (username email password freshId : String) : AuthResponse × List User :=
  match users.find? (fun u => u.email == email || u.username == username) with
  | some _ =>
      ({ status := HTTP_CONFLICT, success := false,
         message := MSG_USER_ALREADY_EXISTS, token := none, user := none }, users)
  | none =>
      let (u, users') := saveNewUser hash users freshId username email password
      ({ status := HTTP_CREATED, success := true,
         message := "User registered successfully",
         token := some (u.id, u.role), user := some (toView u) }, users')

/-- Embeds the login controller (src/controllers/authController.js lines
52-86): findOne by email (401 MSG_INVALID_CREDENTIALS when absent), then
comparePassword (the bcrypt verifier of the missing User model, abstracted
as the `verify plaintext storedHash` parameter; 401 MSG_INVALID_CREDENTIALS
on mismatch), otherwise 200 with token and user view. -/
def login (verify : String → String → Bool) (users : List User)
    (email password : String) : AuthResponse :=
  match users.find? (fun u => u.email == email) with
  | none =>
      { status := HTTP_UNAUTHORIZED, success := false,
        message := MSG_INVALID_CREDENTIALS, token := none, user := none }
  | some u =>
      if verify password u.password then
        { status := HTTP_OK, success := true, message := "Login successful",
          token := some (u.id, u.role), user := some (toView u) }
      else
        { status := HTTP_UNAUTHORIZED, success := false,
          message := MSG_INVALID_CREDENTIALS, token := none, user := none }

/-- Payload carried by a JWT issued by generateToken (src/utils/jwtUtils.js
lines 4-8): userId, role, expiry instant. -/
structure Payload where
  userId : String
  role : String
  exp : Nat
  deriving Repr, DecidableEq

/-- A presented token, as seen by jwt.verify: either not decodable at all,
or a decodable payload carrying a MAC value. -/
inductive Token where
  | malformed (raw : String)
  | signed (payload : Payload) (sig : Nat)
  deriving Repr, DecidableEq

/-- The three failure modes of JWT verification named by spec 4.2. -/
inductive JwtFailure where
  | malformedToken
  | invalidSignature
  | expired
  deriving Repr, DecidableEq

/-- The jsonwebtoken library's jwt.verify (external dependency): Malformed
when the token is not decodable, InvalidSignature when the MAC (computed by
the keyed `mac` function) does not match, Expired when past expiry,
otherwise the decoded payload. -/
def jwtVerifyLib (mac : Payload → Nat) (now : Nat) : Token → Except JwtFailure Payload
  | .malformed _ => .error .malformedToken
  | .signed p sig =>
      if sig == mac p then
        if now < p.exp then .ok p else .error .expired
      else .error .invalidSignature

/-- Embeds verifyToken (src/utils/jwtUtils.js lines 11-17): it wraps
jwt.verify in a try/catch and rethrows every failure as the single
`new Error` with message "Invalid or expired token". -/
def verifyToken (mac : Payload → Nat) (now : Nat) (t : Token) : Except String Payload :=
  match jwtVerifyLib mac now t with
  | .ok p => .ok p
  | .error _ => .error MSG_INVALID_TOKEN

/-- Outcome of the authentication gate: either a caller identity attached
to the request, or a rejection with a status code and message. -/
inductive AuthOutcome where
  | ok (user : Payload)
  | reject (status : Nat) (message : String)
  deriving Repr, DecidableEq

/-- Embeds JavaScript `header.split(' ')` on a character list: fields are
cut at every single space character and empty fields are kept, so
"".split gives one empty field and "a  b" gives a, empty, b. -/
def splitOnSpace : List Char → List (List Char)
  | [] => [[]]
  | c :: rest =>
      if c == ' ' then [] :: splitOnSpace rest
      else
        match splitOnSpace rest with
        | [] => [[c]]
        | g :: gs => (c :: g) :: gs

/-- Embeds the authenticate middleware (src/middleware/authMiddleware.js
lines 5-26, unnamed part_004): the token is component 1 of the
Authorization header split on spaces — no check that component 0 is the
word Bearer.  A missing header, a header with no component 1, or an empty
component 1 (all falsy in the source's `if (!token)`) give 401
MSG_UNAUTHORIZED_ACCESS; a token rejected by the verifier (verifyToken
throwing, abstracted as the `verify` parameter returning none) gives 401
MSG_INVALID_TOKEN; otherwise the decoded payload is attached. -/
def authenticate (verify : List Char → Option Payload)
    (authHeader : Option (List Char)) : AuthOutcome :=
  let token? : Option (List Char) :=
    match authHeader with
    | none => none
    | some h => (splitOnSpace h).get? 1
  match token? with
  | none => .reject HTTP_UNAUTHORIZED MSG_UNAUTHORIZED_ACCESS
  | some [] => .reject HTTP_UNAUTHORIZED MSG_UNAUTHORIZED_ACCESS
  | some tok =>
      match verify tok with
      | some p => .ok p
      | none => .reject HTTP_UNAUTHORIZED MSG_INVALID_TOKEN

/-- Matching of one regex pattern character against one subject character
under the JavaScript `i` flag: the dot metacharacter matches anything,
every other character matches case-insensitively. -/
def patCharMatches (p c : Char) : Bool :=
  p == '.' || p.toLower == c.toLower

/-- The pattern matches at the start of the subject (patterns restricted to
the fragment the filters can produce: literal characters plus the dot
metacharacter). -/
def regexMatchHere : List Char → List Char → Bool
  | [], _ => true
  | _ :: _, [] => false
  | p :: ps, c :: cs => patCharMatches p c && regexMatchHere ps cs

/-- Embeds `new RegExp(pattern, 'i').test(subject)` for the literal+dot
fragment: the pattern matches at some position of the subject. -/
def regexSearch (pat : List Char) : List Char → Bool
  | [] => regexMatchHere pat []
  | c :: cs => regexMatchHere pat (c :: cs) || regexSearch pat cs

/-- Modelled from the spec: spec 4.5 describes the brand and model filters
as case-insensitive SUBSTRING containment.  ciMatchFrom holds when the
needle is a case-insensitive prefix of the hay. -/
def ciMatchFrom : List Char → List Char → Bool
  | [], _ => true
  | _ :: _, [] => false
  | n :: ns, h :: hs => n.toLower == h.toLower && ciMatchFrom ns hs

/-- Modelled from the spec: case-insensitive substring containment of the
needle in the hay (spec 4.5), the comparison point for the regex-based
filter the code builds. -/
def ciSubstr (needle : List Char) : List Char → Bool
  | [] => ciMatchFrom needle []
  | c :: cs => ciMatchFrom needle (c :: cs) || ciSubstr needle cs

/-- Query parameters of GET /cars
(src/controllers/carController.js line 29).  `none` stands for an absent or
empty parameter (empty strings are falsy in the source's `if (brand)`
guards); page and limit default to 1 and 10.  The free-text `search`
parameter is not modelled (no claim mentions it). -/
structure ListQuery where
  status : Option String
  brand : Option String
  model : Option String
  minPrice : Option Nat
  maxPrice : Option Nat
  page : Option Nat
  limit : Option Nat
  deriving Repr, DecidableEq

/-- The Mongo filter built by getAllCarListings
(src/controllers/carController.js lines 31-44): exact status match, brand
and model as case-insensitive regexes over the raw filter strings, price
bounds via gte/lte (inclusive). -/
def carMatchesFilter (q : ListQuery) (c : Car) : Bool :=
  (match q.status with | none => true | some s => c.status == s)
    && (match q.brand with | none => true | some b => regexSearch b.toList c.brand.toList)
    && (match q.model with | none => true | some m => regexSearch m.toList c.model.toList)
    && (match q.minPrice with | none => true | some lo => decide (lo ≤ c.price))
    && (match q.maxPrice with | none => true | some hi => decide (c.price ≤ hi))

/-- Insertion step for the creation-time-descending sort. -/
def insertByCreatedDesc (c : Car) : List Car → List Car
  | [] => [c]
  | d :: ds => if d.createdAt ≤ c.createdAt then c :: d :: ds
               else d :: insertByCreatedDesc c ds

/-- Embeds `.sort(createdAt: -1)`: the matching documents ordered by
creation time descending. -/
def sortByCreatedDesc : List Car → List Car
  | [] => []
  | c :: cs => insertByCreatedDesc c (sortByCreatedDesc cs)

/-- The matching listings of a query, ordered by creation time
descending — the sequence the returned page is cut from. -/
def sortedMatches (store : CarStore) (q : ListQuery) : List Car :=
  sortByCreatedDesc (store.filter (carMatchesFilter q))

/-- Pagination metadata returned by the list endpoints. -/
structure Pagination where
  page : Nat
  limit : Nat
  total : Nat
  pages : Nat
  deriving Repr, DecidableEq

/-- Response of GET /cars. -/
structure ListResponse where
  status : Nat
  success : Bool
  cars : List Car
  pagination : Pagination
  deriving Repr, DecidableEq

/-- Embeds `Math.ceil(total / limit)` over naturals; exact for
limit ≥ 1 (the source computes it with real division and ceiling). -/
def jsCeilDiv (a b : Nat) : Nat := (a + b - 1) / b

/-- Embeds getAllCarListings (src/controllers/carController.js lines
27-69): build the filter, skip (page - 1) * limit matching documents in
creation-time-descending order, take limit of them, count the total of
matching documents with the same filter, and report pagination metadata
with pages = ceil(total / limit). -/
def getAllCarListings (store : CarStore) (q : ListQuery) : ListResponse :=
  let page := q.page.getD 1
  let limit := q.limit.getD 10
  let skip := (page - 1) * limit
  let total := (store.filter (carMatchesFilter q)).length
  { status := HTTP_OK, success := true,
    cars := ((sortedMatches store q).drop skip).take limit,
    pagination := { page := page, limit := limit, total := total,
                    pages := jsCeilDiv total limit } }

/-- Concrete car document used by witnesses and counterexamples. -/
def demoCar : Car :=
  { id := "c1", title := "Family car", description := "clean", brand := "Toyota",
    model := "Corolla", year := 2018, price := 43000, mileage := 50,
    transmission := "manual", fuelType := "petrol", color := none,
    status := "available", owner := "alice", features := [], views := 3,
    createdAt := 5, updatedAt := 5 }

/-- Concrete valid request body used by witnesses and counterexamples. -/
def demoBody : CarBody :=
  { title := "Fresh tyres", description := "well kept", brand := "BMW",
    model := "M5", year := 2020, price := 45000, mileage := 120,
    transmission := "manual", fuelType := "petrol", color := none,
    features := [], owner := none }

/-- Concrete user, hasher and verifier used by witnesses. -/
def demoUser : User :=
  { id := "u1", username := "alice", email := "alice@x", password := "pw#",
    role := "user" }

def demoHash : String → String := fun s => s ++ "#"

def demoVerify : String → String → Bool := fun p h => (p ++ "#") == h

/-- Request body carrying a request-supplied owner key, otherwise equal to
the valid demoBody. -/
def forgedBody : CarBody := { demoBody with owner := some "mallory" }

/-- Listing number k of the 25-car demo store. -/
def pageCar (k : Nat) : Car :=
  { id := toString k, title := "t", description := "d", brand := "BMW",
    model := "M", year := 2020, price := 45000, mileage := 1,
    transmission := "manual", fuelType := "petrol", color := none,
    status := "available", owner := "alice", features := [], views := 0,
    createdAt := k, updatedAt := k }

/-- A store of 25 listings, all matching the unfiltered demo query. -/
def demoStore25 : CarStore := (List.range 25).map pageCar

/-- The demo query: no filters, page 2, limit 10. -/
def demoQuery : ListQuery :=
  { status := none, brand := none, model := none, minPrice := none,
    maxPrice := none, page := some 2, limit := some 10 }

/-- Query whose brand filter contains the regex dot metacharacter. -/
def dotQuery : ListQuery :=
  { status := none, brand := some "t.yota", model := none, minPrice := none,
    maxPrice := none, page := none, limit := none }

/-- Query with special-character-free brand and model filters. -/
def plainQuery : ListQuery :=
  { status := none, brand := some "toyo", model := some "rolla",
    minPrice := none, maxPrice := none, page := none, limit := none }

/-! Helper lemmas, shared across the claims below. -/

theorem findById_map_pointUpdate (store : CarStore) (id : String) (f : Car → Car)
    (hf : ∀ c, (f c).id = c.id) (car : Car) (h : findById store id = some car) :
    findById (store.map (fun c => if c.id == id then f c else c)) id = some (f car) := by
  induction store with
  | nil => simp [findById] at h
  | cons c cs ih =>
      unfold findById at h ⊢
      by_cases hc : (c.id == id) = true
      · rw [@List.find?_cons_of_pos _ (fun c => c.id == id) c cs hc] at h
        injection h with h
        subst h
        simp only [List.map_cons, if_pos hc]
        apply List.find?_cons_of_pos
        rw [hf c]
        exact hc
      · rw [@List.find?_cons_of_neg _ (fun c => c.id == id) c cs hc] at h
        simp only [List.map_cons, if_neg hc]
        rw [@List.find?_cons_of_neg _ (fun c => c.id == id) c (List.map (fun c => if (c.id == id) = true then f c else c) cs) hc]
        exact ih h

theorem findById_map_other (store : CarStore) (id j : String) (f : Car → Car)
    (hf : ∀ c, (f c).id = c.id) :
    findById (store.map (fun c => if c.id == id then f c else c)) j
      = (findById store j).map (fun c => if c.id == id then f c else c) := by
  induction store with
  | nil => simp [findById]
  | cons c cs ih =>
      unfold findById at ih ⊢
      by_cases hc : (c.id == j) = true
      · have hcid : ((if c.id == id then f c else c).id == j) = true := by
          by_cases hcid' : (c.id == id) = true
          · rw [if_pos hcid', hf c]; exact hc
          · rw [if_neg hcid']; exact hc
        rw [@List.find?_cons_of_pos _ (fun c => c.id == j) c cs hc]
        simp only [List.map_cons]
        rw [@List.find?_cons_of_pos _ (fun c => c.id == j) (if (c.id == id) = true then f c else c) (List.map (fun c => if (c.id == id) = true then f c else c) cs) hcid]
        simp only [Option.map_some']
      · have hcid : ¬((if c.id == id then f c else c).id == j) = true := by
          by_cases hcid' : (c.id == id) = true
          · rw [if_pos hcid', hf c]; exact hc
          · rw [if_neg hcid']; exact hc
        rw [@List.find?_cons_of_neg _ (fun c => c.id == j) c cs hc]
        simp only [List.map_cons]
        rw [@List.find?_cons_of_neg _ (fun c => c.id == j) (if (c.id == id) = true then f c else c) (List.map (fun c => if (c.id == id) = true then f c else c) cs) hcid]
        exact ih

theorem findById_filter_erase (store : CarStore) (id : String) :
    findById (store.filter (fun c => c.id != id)) id = none := by
  apply List.find?_eq_none.mpr
  intro x hx
  have hmem := (List.mem_filter.mp hx).2
  simp only [bne_iff_ne, ne_eq, decide_eq_true_eq] at hmem
  simp only [beq_iff_eq]
  exact hmem

/-! Claim theorems. -/

/-- C1: for every existing car listing and every authenticated caller, the
update and delete operations succeed (200, with the store reflecting the
updated document resp. the removal) exactly when the caller's id equals
the listing's owner or the caller's role is admin; otherwise both return
403 Forbidden and leave the store unchanged. -/
theorem C1_update_delete_owner_or_admin
    (store : CarStore) (userId role id : String) (body : CarBody) (now : Nat)
    (car : Car) (h : findById store id = some car) :
    (((updateCarListing store userId role id body now).1.status = HTTP_OK
        ∧ (deleteCarListing store userId role id).1.status = HTTP_OK)
      ↔ (car.owner = userId ∨ role = ROLE_ADMIN))
    ∧ ((car.owner = userId ∨ role = ROLE_ADMIN) →
        findById (updateCarListing store userId role id body now).2 id
            = some (applyBody body now car)
        ∧ (updateCarListing store userId role id body now).1.car
            = some (applyBody body now car)
        ∧ (deleteCarListing store userId role id).2
            = store.filter (fun c => c.id != id)
        ∧ findById (deleteCarListing store userId role id).2 id = none)
    ∧ (¬(car.owner = userId ∨ role = ROLE_ADMIN) →
        (updateCarListing store userId role id body now).1.status = HTTP_FORBIDDEN
        ∧ (updateCarListing store userId role id body now).2 = store
        ∧ (deleteCarListing store userId role id).1.status = HTTP_FORBIDDEN
        ∧ (deleteCarListing store userId role id).2 = store) := by
  by_cases hauth : car.owner = userId ∨ role = ROLE_ADMIN
  · have hguard : (car.owner != userId && role != ROLE_ADMIN) = false := by
      rcases hauth with h1 | h1 <;> simp [h1]
    have hu2 : (updateCarListing store userId role id body now).2
        = store.map (fun c => if c.id == id then applyBody body now c else c) := by
      simp [updateCarListing, h, hguard]
    refine ⟨?_, fun _ => ⟨?_, ?_, ?_, ?_⟩, fun hn => absurd hauth hn⟩
    · constructor
      · intro _
        exact hauth
      · intro _
        constructor <;> simp [updateCarListing, deleteCarListing, h, hguard]
    · rw [hu2]
      exact findById_map_pointUpdate store id (applyBody body now) (fun c => rfl) car h
    · have hcar : (updateCarListing store userId role id body now).1.car
          = findById ((updateCarListing store userId role id body now).2) id := by
        simp [updateCarListing, h, hguard]
      rw [hcar, hu2]
      exact findById_map_pointUpdate store id (applyBody body now) (fun c => rfl) car h
    · simp [deleteCarListing, h, hguard]
    · have hd2 : (deleteCarListing store userId role id).2
          = store.filter (fun c => c.id != id) := by
        simp [deleteCarListing, h, hguard]
      rw [hd2]
      exact findById_filter_erase store id
  · have hguard : (car.owner != userId && role != ROLE_ADMIN) = true := by
      push_neg at hauth
      simp [hauth.1, hauth.2]
    have hus : (updateCarListing store userId role id body now).1.status = HTTP_FORBIDDEN := by
      simp [updateCarListing, h, hguard]
    have hu2 : (updateCarListing store userId role id body now).2 = store := by
      simp [updateCarListing, h, hguard]
    have hds : (deleteCarListing store userId role id).1.status = HTTP_FORBIDDEN := by
      simp [deleteCarListing, h, hguard]
    have hd2 : (deleteCarListing store userId role id).2 = store := by
      simp [deleteCarListing, h, hguard]
    refine ⟨?_, fun hy => absurd hy hauth, fun _ => ⟨hus, hu2, hds, hd2⟩⟩
    constructor
    · intro hy
      rw [hus] at hy
      exact absurd hy.1 (by decide)
    · intro hy
      exact absurd hy hauth

/-- Witness for C1: the owner of the demo listing may update and delete
it, the demo store agreeing with every consequence the theorem lists. -/
theorem C1_update_delete_owner_or_admin_witness :
    findById [demoCar] "c1" = some demoCar
    ∧ ((((updateCarListing [demoCar] "alice" "user" "c1" demoBody 9).1.status = HTTP_OK
          ∧ (deleteCarListing [demoCar] "alice" "user" "c1").1.status = HTTP_OK)
        ↔ (demoCar.owner = "alice" ∨ "user" = ROLE_ADMIN))
      ∧ ((demoCar.owner = "alice" ∨ "user" = ROLE_ADMIN) →
          findById (updateCarListing [demoCar] "alice" "user" "c1" demoBody 9).2 "c1"
              = some (applyBody demoBody 9 demoCar)
          ∧ (updateCarListing [demoCar] "alice" "user" "c1" demoBody 9).1.car
              = some (applyBody demoBody 9 demoCar)
          ∧ (deleteCarListing [demoCar] "alice" "user" "c1").2
              = [demoCar].filter (fun c => c.id != "c1")
          ∧ findById (deleteCarListing [demoCar] "alice" "user" "c1").2 "c1" = none)
      ∧ (¬(demoCar.owner = "alice" ∨ "user" = ROLE_ADMIN) →
          (updateCarListing [demoCar] "alice" "user" "c1" demoBody 9).1.status = HTTP_FORBIDDEN
          ∧ (updateCarListing [demoCar] "alice" "user" "c1" demoBody 9).2 = [demoCar]
          ∧ (deleteCarListing [demoCar] "alice" "user" "c1").1.status = HTTP_FORBIDDEN
          ∧ (deleteCarListing [demoCar] "alice" "user" "c1").2 = [demoCar])) :=
  ⟨by decide,
   C1_update_delete_owner_or_admin [demoCar] "alice" "user" "c1" demoBody 9 demoCar (by decide)⟩

/-- C2: when a listing id does not resolve, update and delete return 404
NotFound (with the car-not-found message) for every caller and never 403,
leaving the store unchanged: existence is checked before ownership. -/
theorem C2_nonexistent_id_404
    (store : CarStore) (userId role id : String) (body : CarBody) (now : Nat)
    (h : findById store id = none) :
    (updateCarListing store userId role id body now).1.status = HTTP_NOT_FOUND
    ∧ (updateCarListing store userId role id body now).1.message = some MSG_CAR_NOT_FOUND
    ∧ (updateCarListing store userId role id body now).2 = store
    ∧ (updateCarListing store userId role id body now).1.status ≠ HTTP_FORBIDDEN
    ∧ (deleteCarListing store userId role id).1.status = HTTP_NOT_FOUND
    ∧ (deleteCarListing store userId role id).1.message = some MSG_CAR_NOT_FOUND
    ∧ (deleteCarListing store userId role id).2 = store
    ∧ (deleteCarListing store userId role id).1.status ≠ HTTP_FORBIDDEN := by
  refine ⟨?_, ?_, ?_, ?_, ?_, ?_, ?_, ?_⟩ <;>
    simp [updateCarListing, deleteCarListing, h, HTTP_NOT_FOUND, HTTP_FORBIDDEN]

/-- Witness for C2: an id absent from the demo store produces 404, never
403, for a non-owner caller. -/
theorem C2_nonexistent_id_404_witness :
    findById [demoCar] "ghost" = none
    ∧ ((updateCarListing [demoCar] "bob" "user" "ghost" demoBody 9).1.status = HTTP_NOT_FOUND
      ∧ (updateCarListing [demoCar] "bob" "user" "ghost" demoBody 9).1.message = some MSG_CAR_NOT_FOUND
      ∧ (updateCarListing [demoCar] "bob" "user" "ghost" demoBody 9).2 = [demoCar]
      ∧ (updateCarListing [demoCar] "bob" "user" "ghost" demoBody 9).1.status ≠ HTTP_FORBIDDEN
      ∧ (deleteCarListing [demoCar] "bob" "user" "ghost").1.status = HTTP_NOT_FOUND
      ∧ (deleteCarListing [demoCar] "bob" "user" "ghost").1.message = some MSG_CAR_NOT_FOUND
      ∧ (deleteCarListing [demoCar] "bob" "user" "ghost").2 = [demoCar]
      ∧ (deleteCarListing [demoCar] "bob" "user" "ghost").1.status ≠ HTTP_FORBIDDEN) :=
  ⟨by decide, C2_nonexistent_id_404 [demoCar] "bob" "user" "ghost" demoBody 9 (by decide)⟩

/-- C3: login fails with 401 and literally the same response (message
MSG_INVALID_CREDENTIALS, no token, no user) both when no user record has
the given email and when the password verifier rejects, so the two failure
causes are indistinguishable to the caller. -/
theorem C3_login_uniform_401
    (verify verify2 : String → String → Bool) (users users2 : List User)
    (email pw email2 pw2 : String) :
    (users.find? (fun u => u.email == email) = none →
        login verify users email pw
          = { status := HTTP_UNAUTHORIZED, success := false,
              message := MSG_INVALID_CREDENTIALS, token := none, user := none })
    ∧ (∀ u, users.find? (fun u => u.email == email) = some u →
        verify pw u.password = false →
        login verify users email pw
          = { status := HTTP_UNAUTHORIZED, success := false,
              message := MSG_INVALID_CREDENTIALS, token := none, user := none })
    ∧ (∀ u, users.find? (fun u => u.email == email) = none →
        users2.find? (fun u => u.email == email2) = some u →
        verify2 pw2 u.password = false →
        login verify users email pw = login verify2 users2 email2 pw2) := by
  refine ⟨fun h => by simp [login, h],
          fun u h hv => by simp [login, h, hv],
          fun u h1 h2 hv => by simp [login, h1, h2, hv]⟩

/-- Witness for C3: an unknown email and a wrong password against the demo
user store produce the very same 401 response. -/
theorem C3_login_uniform_401_witness :
    login demoVerify [demoUser] "nobody@x" "pw"
        = { status := HTTP_UNAUTHORIZED, success := false,
            message := MSG_INVALID_CREDENTIALS, token := none, user := none }
    ∧ login demoVerify [demoUser] "alice@x" "wrong"
        = { status := HTTP_UNAUTHORIZED, success := false,
            message := MSG_INVALID_CREDENTIALS, token := none, user := none }
    ∧ login demoVerify [demoUser] "nobody@x" "pw"
        = login demoVerify [demoUser] "alice@x" "wrong" := by
  have ha := C3_login_uniform_401 demoVerify demoVerify [demoUser] [demoUser]
    "nobody@x" "pw" "alice@x" "wrong"
  have hb := C3_login_uniform_401 demoVerify demoVerify [demoUser] [demoUser]
    "alice@x" "wrong" "alice@x" "wrong"
  exact ⟨ha.1 (by decide),
         hb.2.1 demoUser (by decide) (by decide),
         ha.2.2 demoUser (by decide) (by decide) (by decide)⟩

/-- C4: registration returns 409 Conflict and leaves the user store
unchanged when some existing user has the requested email OR username;
otherwise it persists exactly one new user with the default role and
returns 201 with a token, and a second registration under the same email
then yields 409 and changes nothing. -/
theorem C4_register_conflict_or_create
    (hash : String → String) (users : List User)
    (username email password freshId : String) :
    ((∃ u ∈ users, u.email = email ∨ u.username = username) →
        (register hash users username email password freshId).1.status = HTTP_CONFLICT
        ∧ (register hash users username email password freshId).1.message
            = MSG_USER_ALREADY_EXISTS
        ∧ (register hash users username email password freshId).2 = users)
    ∧ ((∀ u ∈ users, u.email ≠ email ∧ u.username ≠ username) →
        (register hash users username email password freshId).1.status = HTTP_CREATED
        ∧ (register hash users username email password freshId).1.token
            = some (freshId, ROLE_USER)
        ∧ (register hash users username email password freshId).2
            = users ++ [{ id := freshId, username := username, email := email,
                          password := hash password, role := ROLE_USER }]
        ∧ ∀ username' password' freshId',
            (register hash (register hash users username email password freshId).2
                username' email password' freshId').1.status = HTTP_CONFLICT
            ∧ (register hash (register hash users username email password freshId).2
                username' email password' freshId').2
              = (register hash users username email password freshId).2) := by
  constructor
  · intro hex
    have hsome : (users.find? (fun u => u.email == email || u.username == username)).isSome := by
      apply List.find?_isSome.mpr
      obtain ⟨u, hu, hor⟩ := hex
      refine ⟨u, hu, ?_⟩
      rcases hor with h1 | h1 <;> simp [h1]
    obtain ⟨v, hv⟩ := Option.isSome_iff_exists.mp hsome
    refine ⟨?_, ?_, ?_⟩ <;> simp [register, hv]
  · intro hall
    have hnone : users.find? (fun u => u.email == email || u.username == username) = none := by
      apply List.find?_eq_none.mpr
      intro u hu
      have := hall u hu
      simp [this.1, this.2]
    have hreg : (register hash users username email password freshId).2
        = users ++ [{ id := freshId, username := username, email := email,
                      password := hash password, role := ROLE_USER }] := by
      simp [register, hnone, saveNewUser]
    refine ⟨by simp [register, hnone, saveNewUser],
            by simp [register, hnone, saveNewUser], hreg, ?_⟩
    intro username' password' freshId'
    have hsome : ((register hash users username email password freshId).2.find?
        (fun u => u.email == email || u.username == username')).isSome := by
      apply List.find?_isSome.mpr
      refine ⟨(saveNewUser hash users freshId username email password).1, ?_, ?_⟩
      · rw [hreg]
        simp [saveNewUser]
      · simp [saveNewUser]
    obtain ⟨v, hv⟩ := Option.isSome_iff_exists.mp hsome
    rw [hreg] at hv
    rw [hreg]
    constructor <;> simp [register, hv]

/-- Witness for C4: registering a taken email conflicts and changes
nothing; registering a fresh email succeeds once and conflicts the second
time. -/
theorem C4_register_conflict_or_create_witness :
    (register demoHash [demoUser] "alice2" "alice@x" "pw" "u9").1.status = HTTP_CONFLICT
    ∧ (register demoHash [demoUser] "alice2" "alice@x" "pw" "u9").2 = [demoUser]
    ∧ (register demoHash [demoUser] "bob" "bob@x" "pw" "u9").1.status = HTTP_CREATED
    ∧ (register demoHash [demoUser] "bob" "bob@x" "pw" "u9").1.token = some ("u9", ROLE_USER)
    ∧ (register demoHash (register demoHash [demoUser] "bob" "bob@x" "pw" "u9").2
        "bob2" "bob@x" "pw2" "u10").1.status = HTTP_CONFLICT
    ∧ (register demoHash (register demoHash [demoUser] "bob" "bob@x" "pw" "u9").2
        "bob2" "bob@x" "pw2" "u10").2
      = (register demoHash [demoUser] "bob" "bob@x" "pw" "u9").2 := by
  have h1 := (C4_register_conflict_or_create demoHash [demoUser] "alice2" "alice@x" "pw" "u9").1
    ⟨demoUser, by simp, Or.inl (by decide)⟩
  have h2 := (C4_register_conflict_or_create demoHash [demoUser] "bob" "bob@x" "pw" "u9").2
    (by intro u hu; simp at hu; subst hu; exact ⟨by decide, by decide⟩)
  exact ⟨h1.1, h1.2.2, h2.1, h2.2.1, (h2.2.2.2 "bob2" "pw2" "u10").1, (h2.2.2.2 "bob2" "pw2" "u10").2⟩

/-- C5 counterexample: a create request whose body supplies an owner value
is rejected by the route's Joi validation (owner is not a schema key) with
400, and no listing is created — refuting the claim that the listing "is
still created" with the authenticated subject as owner.  The same body
without the owner key passes validation, so the rejection is caused by the
owner key alone. -/
theorem C5_counterexample :
    validateCarListing 2025 forgedBody = false
    ∧ (createListingRoute 2025 [] "alice" forgedBody "c9" 7).1.status = HTTP_BAD_REQUEST
    ∧ (createListingRoute 2025 [] "alice" forgedBody "c9" 7).2 = []
    ∧ validateCarListing 2025 demoBody = true := by
  refine ⟨by decide, by decide, by decide, by decide⟩

/-- C5 amended: every listing the create route persists has the
authenticated subject as its owner.  A body that passes validation is
created with owner forced to the caller (any body-supplied owner would be
overwritten by the controller's spread), and a body that does supply an
owner key is rejected with 400 before the controller runs and persists
nothing — so no listing is ever created under a forged identity. -/
theorem C5_owner_forced
    (currentYear : Nat) (store : CarStore) (userId : String) (body : CarBody)
    (freshId : String) (now : Nat) :
    (∀ c ∈ (createListingRoute currentYear store userId body freshId now).2,
        c ∈ store ∨ c.owner = userId)
    ∧ (newCarFrom body userId freshId now).owner = userId
    ∧ (∀ v, body.owner = some v →
        (createListingRoute currentYear store userId body freshId now).1.status
            = HTTP_BAD_REQUEST
        ∧ (createListingRoute currentYear store userId body freshId now).2 = store)
    ∧ (validateCarListing currentYear body = true →
        (createListingRoute currentYear store userId body freshId now).1.status = HTTP_CREATED
        ∧ (createListingRoute currentYear store userId body freshId now).1.car
            = some (newCarFrom body userId freshId now)
        ∧ (createListingRoute currentYear store userId body freshId now).2
            = store ++ [newCarFrom body userId freshId now]) := by
  by_cases hval : validateCarListing currentYear body = true
  · have hr : createListingRoute currentYear store userId body freshId now
        = ({ status := HTTP_CREATED, success := true,
             message := some "Car listing created successfully",
             car := some (newCarFrom body userId freshId now) },
           store ++ [newCarFrom body userId freshId now]) := by
      simp [createListingRoute, hval, createCarListing]
    refine ⟨?_, rfl, ?_, fun _ => by rw [hr]; exact ⟨rfl, rfl, rfl⟩⟩
    · intro c hc
      rw [hr] at hc
      rcases List.mem_append.mp hc with h1 | h1
      · exact Or.inl h1
      · right
        have hce : c = newCarFrom body userId freshId now := by simpa using h1
        rw [hce]
        rfl
    · intro v hv
      have hf : validateCarListing currentYear body = false := by
        simp [validateCarListing, hv]
      rw [hval] at hf
      exact absurd hf (by decide)
  · have hr : createListingRoute currentYear store userId body freshId now
        = ({ status := HTTP_BAD_REQUEST, success := false,
             message := some MSG_VALIDATION_ERROR, car := none }, store) := by
      simp [createListingRoute, hval]
    refine ⟨fun c hc => Or.inl (by rwa [hr] at hc), rfl,
            fun v hv => by rw [hr]; exact ⟨rfl, rfl⟩,
            fun h => absurd h hval⟩

/-- Witness for C5 amended: the valid demo body is created for alice with
owner alice; the forged body is rejected with 400 and creates nothing. -/
theorem C5_owner_forced_witness :
    (newCarFrom demoBody "alice" "c9" 7).owner = "alice"
    ∧ (createListingRoute 2025 [] "alice" demoBody "c9" 7).1.status = HTTP_CREATED
    ∧ (createListingRoute 2025 [] "alice" demoBody "c9" 7).2
        = [newCarFrom demoBody "alice" "c9" 7]
    ∧ (createListingRoute 2025 [] "alice" forgedBody "c9" 7).1.status = HTTP_BAD_REQUEST
    ∧ (createListingRoute 2025 [] "alice" forgedBody "c9" 7).2 = [] := by
  have h1 := C5_owner_forced 2025 [] "alice" demoBody "c9" 7
  have h2 := C5_owner_forced 2025 [] "alice" forgedBody "c9" 7
  have hc := h1.2.2.2 (by decide)
  exact ⟨h1.2.1, hc.1, by simpa using hc.2.2,
         (h2.2.2.1 "mallory" (by decide)).1, (h2.2.2.1 "mallory" (by decide)).2⟩

/-- C6 counterexample: three tokens failing for the three distinct causes
named by the claim (not decodable, expired, MAC mismatch) all make
verifyToken fail with one and the same error value, so the operation does
not distinguish the three failure modes. -/
theorem C6_counterexample :
    jwtVerifyLib (fun _ => 0) 100 (Token.malformed "xx")
        = Except.error JwtFailure.malformedToken
    ∧ jwtVerifyLib (fun _ => 0) 100 (Token.signed { userId := "u", role := "user", exp := 50 } 0)
        = Except.error JwtFailure.expired
    ∧ jwtVerifyLib (fun _ => 0) 100 (Token.signed { userId := "u", role := "user", exp := 200 } 1)
        = Except.error JwtFailure.invalidSignature
    ∧ verifyToken (fun _ => 0) 100 (Token.malformed "xx")
        = Except.error MSG_INVALID_TOKEN
    ∧ verifyToken (fun _ => 0) 100 (Token.signed { userId := "u", role := "user", exp := 50 } 0)
        = Except.error MSG_INVALID_TOKEN
    ∧ verifyToken (fun _ => 0) 100 (Token.signed { userId := "u", role := "user", exp := 200 } 1)
        = Except.error MSG_INVALID_TOKEN := by
  refine ⟨rfl, ?_, ?_, rfl, ?_, ?_⟩ <;> simp [jwtVerifyLib, verifyToken]

/-- C6 amended: token verification either succeeds returning the embedded
payload (subjectId and role), or fails — but with the single uniform error
MSG_INVALID_TOKEN, never with a cause distinguishing signature, expiry and
malformedness. -/
theorem C6_uniform_failure (mac : Payload → Nat) (now : Nat) (t : Token) :
    (∃ p, jwtVerifyLib mac now t = Except.ok p
        ∧ verifyToken mac now t = Except.ok p
        ∧ ∀ q s, t = Token.signed q s → p = q)
    ∨ verifyToken mac now t = Except.error MSG_INVALID_TOKEN := by
  cases h : jwtVerifyLib mac now t with
  | ok p =>
      left
      refine ⟨p, rfl, by simp [verifyToken, h], ?_⟩
      intro q s ht
      subst ht
      simp only [jwtVerifyLib] at h
      split at h
      · split at h
        · injection h with h
          exact h.symm
        · simp at h
      · simp at h
  | error e =>
      right
      simp [verifyToken, h]

/-- Witness for C6 amended: the amended dichotomy at a concrete
non-decodable token. -/
theorem C6_uniform_failure_witness :
    (∃ p, jwtVerifyLib (fun _ => 0) 100 (Token.malformed "xx") = Except.ok p
        ∧ verifyToken (fun _ => 0) 100 (Token.malformed "xx") = Except.ok p
        ∧ ∀ q s, Token.malformed "xx" = Token.signed q s → p = q)
    ∨ verifyToken (fun _ => 0) 100 (Token.malformed "xx")
        = Except.error MSG_INVALID_TOKEN :=
  C6_uniform_failure (fun _ => 0) 100 (Token.malformed "xx")

theorem viewListingN_find (id : String) :
    ∀ (n : Nat) (store : CarStore) (car : Car),
      findById store id = some car →
      findById (viewListingN id n store) id = some { car with views := car.views + n } := by
  intro n
  induction n with
  | zero =>
      intro store car h
      exact h
  | succ n ih =>
      intro store car h
      have hsnd : (getCarListingById store id).2
          = store.map (fun c => if c.id == id then { c with views := c.views + 1 } else c) := by
        simp [getCarListingById, h]
      have h1 : findById (getCarListingById store id).2 id
          = some { car with views := car.views + 1 } := by
        rw [hsnd]
        exact findById_map_pointUpdate store id
          (fun c => { c with views := c.views + 1 }) (fun c => rfl) car h
      have h2 := ih (getCarListingById store id).2 _ h1
      show findById (viewListingN id n (getCarListingById store id).2) id = _
      rw [h2]
      have harith : car.views + 1 + n = car.views + (n + 1) := by omega
      simp [harith]

/-- C7: fetching an existing listing by id returns 200 with the document
whose view counter is incremented by exactly 1 and stores that increment
as one atomic step; n iterated fetches increment the counter by exactly n;
no document's counter ever decreases; fetching a nonexistent id returns
404 and leaves the store unchanged. -/
theorem C7_view_counter (store : CarStore) (id : String) :
    (∀ car, findById store id = some car →
        (getCarListingById store id).1.status = HTTP_OK
        ∧ (getCarListingById store id).1.car = some { car with views := car.views + 1 }
        ∧ findById (getCarListingById store id).2 id = some { car with views := car.views + 1 }
        ∧ (∀ n, findById (viewListingN id n store) id
              = some { car with views := car.views + n })
        ∧ (∀ c ∈ (getCarListingById store id).2,
              ∃ c0 ∈ store, c.id = c0.id ∧ c0.views ≤ c.views))
    ∧ (findById store id = none →
        getCarListingById store id
          = ({ status := HTTP_NOT_FOUND, success := false,
               message := some MSG_CAR_NOT_FOUND, car := none }, store)) := by
  constructor
  · intro car h
    have hsnd : (getCarListingById store id).2
        = store.map (fun c => if c.id == id then { c with views := c.views + 1 } else c) := by
      simp [getCarListingById, h]
    refine ⟨by simp [getCarListingById, h], by simp [getCarListingById, h], ?_,
            fun n => viewListingN_find id n store car h, ?_⟩
    · rw [hsnd]
      exact findById_map_pointUpdate store id
        (fun c => { c with views := c.views + 1 }) (fun c => rfl) car h
    · intro c hc
      rw [hsnd] at hc
      obtain ⟨c0, hc0, hfc⟩ := List.mem_map.mp hc
      refine ⟨c0, hc0, ?_, ?_⟩
      · rw [← hfc]
        by_cases hcid : (c0.id == id) = true
        · rw [if_pos hcid]
        · rw [if_neg hcid]
      · rw [← hfc]
        by_cases hcid : (c0.id == id) = true
        · rw [if_pos hcid]
          exact Nat.le_succ _
        · rw [if_neg hcid]
  · intro h
    simp [getCarListingById, h]

/-- Witness for C7: the demo listing's counter goes from 3 to 4 on one
fetch and to 8 after five fetches; a ghost id gives 404 with the store
untouched. -/
theorem C7_view_counter_witness :
    (getCarListingById [demoCar] "c1").1.status = HTTP_OK
    ∧ (getCarListingById [demoCar] "c1").1.car
        = some { demoCar with views := demoCar.views + 1 }
    ∧ findById (viewListingN "c1" 5 [demoCar]) "c1"
        = some { demoCar with views := demoCar.views + 5 }
    ∧ getCarListingById [demoCar] "ghost"
        = ({ status := HTTP_NOT_FOUND, success := false,
             message := some MSG_CAR_NOT_FOUND, car := none }, [demoCar]) := by
  have h := (C7_view_counter [demoCar] "c1").1 demoCar (by decide)
  have h2 := (C7_view_counter [demoCar] "ghost").2 (by decide)
  exact ⟨h.1, h.2.1, h.2.2.2.1 5, h2⟩

theorem length_insertByCreatedDesc (c : Car) (l : List Car) :
    (insertByCreatedDesc c l).length = l.length + 1 := by
  induction l with
  | nil => rfl
  | cons d ds ih =>
      unfold insertByCreatedDesc
      by_cases h : d.createdAt ≤ c.createdAt
      · rw [if_pos h]
        simp
      · rw [if_neg h]
        simp [ih]

theorem length_sortByCreatedDesc (l : List Car) :
    (sortByCreatedDesc l).length = l.length := by
  induction l with
  | nil => rfl
  | cons c cs ih => simp [sortByCreatedDesc, length_insertByCreatedDesc, ih]

theorem jsCeilDiv_mul_ge (t L : Nat) (hL : 1 ≤ L) : t ≤ jsCeilDiv t L * L := by
  unfold jsCeilDiv
  have h0 : 0 < L := hL
  have hx : t + L - 1 < ((t + L - 1) / L + 1) * L :=
    (Nat.div_lt_iff_lt_mul h0).mp (Nat.lt_succ_self _)
  have hsm : ((t + L - 1) / L + 1) * L = ((t + L - 1) / L) * L + L := Nat.succ_mul _ L
  omega

theorem jsCeilDiv_le_bound (t L m : Nat) (hL : 1 ≤ L) (h : t ≤ m * L) :
    jsCeilDiv t L ≤ m := by
  unfold jsCeilDiv
  have h0 : 0 < L := hL
  have hsm : (m + 1) * L = m * L + L := Nat.succ_mul m L
  have hx : (t + L - 1) / L < m + 1 := (Nat.div_lt_iff_lt_mul h0).mpr (by omega)
  omega

/-- C8: a listing query with page p ≥ 1 (default 1) and limit L ≥ 1
(default 10) returns exactly the items at positions (p-1)L .. pL-1 of the
matches ordered by creation time descending, and pagination metadata with
that page, that limit, the total number of matches, and pages the least
number of L-sized pages covering the total (i.e. ceil(total/L)). -/
theorem C8_pagination (store : CarStore) (q : ListQuery)
    (hp : 1 ≤ q.page.getD 1) (hL : 1 ≤ q.limit.getD 10) :
    (getAllCarListings store q).cars.length
        = min (q.limit.getD 10)
            ((sortedMatches store q).length - (q.page.getD 1 - 1) * q.limit.getD 10)
    ∧ (∀ i, i < (getAllCarListings store q).cars.length →
        (getAllCarListings store q).cars[i]?
          = (sortedMatches store q)[(q.page.getD 1 - 1) * q.limit.getD 10 + i]?)
    ∧ (getAllCarListings store q).pagination.page = q.page.getD 1
    ∧ (getAllCarListings store q).pagination.limit = q.limit.getD 10
    ∧ (getAllCarListings store q).pagination.total = (sortedMatches store q).length
    ∧ (getAllCarListings store q).pagination.total
        ≤ (getAllCarListings store q).pagination.pages * q.limit.getD 10
    ∧ (∀ m, (getAllCarListings store q).pagination.total ≤ m * q.limit.getD 10 →
        (getAllCarListings store q).pagination.pages ≤ m) := by
  have hcars : (getAllCarListings store q).cars
      = ((sortedMatches store q).drop ((q.page.getD 1 - 1) * q.limit.getD 10)).take
          (q.limit.getD 10) := rfl
  have hpag : (getAllCarListings store q).pagination
      = { page := q.page.getD 1, limit := q.limit.getD 10,
          total := (store.filter (carMatchesFilter q)).length,
          pages := jsCeilDiv (store.filter (carMatchesFilter q)).length
                     (q.limit.getD 10) } := rfl
  have htot : (store.filter (carMatchesFilter q)).length
      = (sortedMatches store q).length := (length_sortByCreatedDesc _).symm
  refine ⟨?_, ?_, ?_, ?_, ?_, ?_, ?_⟩
  · rw [hcars, List.length_take, List.length_drop]
  · intro i hi
    rw [hcars] at hi ⊢
    rw [List.length_take] at hi
    have hi' : i < q.limit.getD 10 := lt_of_lt_of_le hi inf_le_left
    rw [List.getElem?_take, if_pos hi', List.getElem?_drop]
  · rw [hpag]
  · rw [hpag]
  · rw [hpag]
    exact htot
  · rw [hpag]
    exact jsCeilDiv_mul_ge _ _ hL
  · intro m hm
    rw [hpag] at hm ⊢
    exact jsCeilDiv_le_bound _ _ m hL hm

/-- Witness for C8: page 2 with limit 10 over 25 matching listings returns
10 items and pagination page 2, limit 10, total 25, pages 3. -/
theorem C8_pagination_witness :
    1 ≤ demoQuery.page.getD 1
    ∧ 1 ≤ demoQuery.limit.getD 10
    ∧ (getAllCarListings demoStore25 demoQuery).cars.length = 10
    ∧ (getAllCarListings demoStore25 demoQuery).pagination.page = 2
    ∧ (getAllCarListings demoStore25 demoQuery).pagination.limit = 10
    ∧ (getAllCarListings demoStore25 demoQuery).pagination.total = 25
    ∧ (getAllCarListings demoStore25 demoQuery).pagination.pages = 3
    ∧ (getAllCarListings demoStore25 demoQuery).cars[0]?
        = (sortedMatches demoStore25 demoQuery)[(demoQuery.page.getD 1 - 1)
            * demoQuery.limit.getD 10 + 0]? := by
  have h := C8_pagination demoStore25 demoQuery (by decide) (by decide)
  exact ⟨by decide, by decide, by decide, by decide, by decide, by decide, by decide,
         h.2.1 0 (by decide)⟩

theorem regexMatchHere_eq_ciMatchFrom :
    ∀ (pat : List Char), '.' ∉ pat →
      ∀ s, regexMatchHere pat s = ciMatchFrom pat s := by
  intro pat
  induction pat with
  | nil =>
      intro _ s
      cases s <;> rfl
  | cons p ps ih =>
      intro hp s
      have hp1 : p ≠ '.' := fun h => hp (h ▸ List.mem_cons_self p ps)
      have hp2 : '.' ∉ ps := fun h => hp (List.mem_cons_of_mem p h)
      cases s with
      | nil => rfl
      | cons c cs =>
          simp only [regexMatchHere, ciMatchFrom, patCharMatches, ih hp2]
          have hdot : (p == '.') = false := by
            simp [hp1]
          rw [hdot]
          simp

theorem regexSearch_eq_ciSubstr (pat : List Char) (hp : '.' ∉ pat) :
    ∀ s, regexSearch pat s = ciSubstr pat s := by
  intro s
  induction s with
  | nil => simp [regexSearch, ciSubstr, regexMatchHere_eq_ciMatchFrom pat hp]
  | cons c cs ih =>
      simp [regexSearch, ciSubstr, regexMatchHere_eq_ciMatchFrom pat hp, ih]

/-- C9 counterexample: with the brand filter string "t.yota" (which
contains a regex special character), the result set contains the demo
listing with brand "Toyota" although "t.yota" is NOT a case-insensitive
substring of "Toyota" — the unescaped filter string is interpreted as a
regex pattern, so the claimed substring characterization fails for filter
strings with special characters. -/
theorem C9_counterexample :
    (getAllCarListings [demoCar] dotQuery).cars = [demoCar]
    ∧ ciSubstr "t.yota".toList demoCar.brand.toList = false := by
  exact ⟨by decide, by decide⟩

/-- C9 amended: for brand and model filter strings free of regex special
characters (in the modelled literal+dot fragment: no dot), the matching
set consists exactly of the stored listings whose brand (model) contains
the filter as a case-insensitive substring, combined with the exact status
match and the inclusive minPrice and maxPrice bounds. -/
theorem C9_filter_semantics (store : CarStore) (q : ListQuery) (b m : String)
    (hb : q.brand = some b) (hm : q.model = some m)
    (hbs : '.' ∉ b.toList) (hms : '.' ∉ m.toList) (c : Car) :
    c ∈ store.filter (carMatchesFilter q)
      ↔ (c ∈ store
          ∧ (∀ st, q.status = some st → c.status = st)
          ∧ ciSubstr b.toList c.brand.toList = true
          ∧ ciSubstr m.toList c.model.toList = true
          ∧ (∀ lo, q.minPrice = some lo → lo ≤ c.price)
          ∧ (∀ hi, q.maxPrice = some hi → c.price ≤ hi)) := by
  rw [List.mem_filter]
  have hbool : carMatchesFilter q c = true
      ↔ ((∀ st, q.status = some st → c.status = st)
          ∧ ciSubstr b.toList c.brand.toList = true
          ∧ ciSubstr m.toList c.model.toList = true
          ∧ (∀ lo, q.minPrice = some lo → lo ≤ c.price)
          ∧ (∀ hi, q.maxPrice = some hi → c.price ≤ hi)) := by
    unfold carMatchesFilter
    simp only [hb, hm]
    rw [regexSearch_eq_ciSubstr b.toList hbs, regexSearch_eq_ciSubstr m.toList hms]
    cases hst : q.status <;> cases hlo : q.minPrice <;> cases hhi : q.maxPrice <;>
      simp [Bool.and_eq_true, beq_iff_eq, decide_eq_true_eq, and_assoc]
  rw [hbool]

/-- Witness for C9 amended: the demo listing (brand Toyota, model Corolla)
satisfies the substring characterization for the plain filters toyo and
rolla. -/
theorem C9_filter_semantics_witness :
    plainQuery.brand = some "toyo"
    ∧ plainQuery.model = some "rolla"
    ∧ '.' ∉ "toyo".toList
    ∧ '.' ∉ "rolla".toList
    ∧ (demoCar ∈ [demoCar].filter (carMatchesFilter plainQuery)
        ↔ (demoCar ∈ [demoCar]
            ∧ (∀ st, plainQuery.status = some st → demoCar.status = st)
            ∧ ciSubstr "toyo".toList demoCar.brand.toList = true
            ∧ ciSubstr "rolla".toList demoCar.model.toList = true
            ∧ (∀ lo, plainQuery.minPrice = some lo → lo ≤ demoCar.price)
            ∧ (∀ hi, plainQuery.maxPrice = some hi → demoCar.price ≤ hi))) :=
  ⟨rfl, rfl, by decide, by decide,
   C9_filter_semantics [demoCar] plainQuery "toyo" "rolla" rfl rfl
     (by decide) (by decide) demoCar⟩

theorem splitOnSpace_cons (c : Char) (rest : List Char) :
    splitOnSpace (c :: rest)
      = if c == ' ' then [] :: splitOnSpace rest
        else match splitOnSpace rest with
             | [] => [[c]]
             | g :: gs => (c :: g) :: gs := rfl

theorem splitOnSpace_of_no_space (tok : List Char) (h : ' ' ∉ tok) :
    splitOnSpace tok = [tok] := by
  induction tok with
  | nil => rfl
  | cons c cs ih =>
      have hc : c ≠ ' ' := fun hx => h (hx ▸ List.mem_cons_self c cs)
      have hcs : ' ' ∉ cs := fun hx => h (List.mem_cons_of_mem c hx)
      have hcb : (c == ' ') = false := by simp [hc]
      rw [splitOnSpace_cons, hcb, ih hcs]
      simp

theorem splitOnSpace_append (scheme tok : List Char) (h : ' ' ∉ scheme) :
    splitOnSpace (scheme ++ ' ' :: tok) = scheme :: splitOnSpace tok := by
  induction scheme with
  | nil =>
      rw [List.nil_append, splitOnSpace_cons]
      simp
  | cons c cs ih =>
      have hc : c ≠ ' ' := fun hx => h (hx ▸ List.mem_cons_self c cs)
      have hcs : ' ' ∉ cs := fun hx => h (List.mem_cons_of_mem c hx)
      have hcb : (c == ' ') = false := by simp [hc]
      rw [List.cons_append, splitOnSpace_cons, hcb, ih hcs]
      simp

/-- C10: the authentication gate takes component 1 of the space-split
Authorization header without checking the scheme word: any header
"anyScheme validToken" authenticates and attaches the token's payload
(userId and role), while an absent header or one with no second component
is rejected with 401. -/
theorem C10_auth_no_scheme_check (verify : List Char → Option Payload) :
    (∀ (scheme tok : List Char) (p : Payload),
        ' ' ∉ scheme → ' ' ∉ tok → tok ≠ [] → verify tok = some p →
        authenticate verify (some (scheme ++ ' ' :: tok)) = AuthOutcome.ok p)
    ∧ authenticate verify none
        = AuthOutcome.reject HTTP_UNAUTHORIZED MSG_UNAUTHORIZED_ACCESS
    ∧ (∀ h : List Char, (splitOnSpace h).get? 1 = none →
        authenticate verify (some h)
          = AuthOutcome.reject HTTP_UNAUTHORIZED MSG_UNAUTHORIZED_ACCESS) := by
  refine ⟨?_, rfl, ?_⟩
  · intro scheme tok p hscheme htok hne hv
    have hsplit : (splitOnSpace (scheme ++ ' ' :: tok)).get? 1 = some tok := by
      rw [splitOnSpace_append scheme tok hscheme, splitOnSpace_of_no_space tok htok]
      rfl
    simp only [authenticate, hsplit]
    cases tok with
    | nil => exact absurd rfl hne
    | cons c cs => simp [hv]
  · intro h hnone
    simp only [authenticate, hnone]

/-- Witness for C10: a non-Bearer scheme word still authenticates with the
token's payload; a missing header and a header without second component
are rejected with 401. -/
theorem C10_auth_no_scheme_check_witness :
    (' ' ∉ "Weird".toList)
    ∧ (' ' ∉ "tok".toList)
    ∧ "tok".toList ≠ []
    ∧ authenticate
        (fun t => if t == "tok".toList
                  then some { userId := "u1", role := "user", exp := 9 } else none)
        (some ("Weird".toList ++ ' ' :: "tok".toList))
        = AuthOutcome.ok { userId := "u1", role := "user", exp := 9 }
    ∧ authenticate
        (fun t => if t == "tok".toList
                  then some { userId := "u1", role := "user", exp := 9 } else none)
        none
        = AuthOutcome.reject HTTP_UNAUTHORIZED MSG_UNAUTHORIZED_ACCESS
    ∧ authenticate
        (fun t => if t == "tok".toList
                  then some { userId := "u1", role := "user", exp := 9 } else none)
        (some "Bearer".toList)
        = AuthOutcome.reject HTTP_UNAUTHORIZED MSG_UNAUTHORIZED_ACCESS := by
  have h := C10_auth_no_scheme_check
    (fun t => if t == "tok".toList
              then some { userId := "u1", role := "user", exp := 9 } else none)
  exact ⟨by decide, by decide, by decide,
         h.1 "Weird".toList "tok".toList { userId := "u1", role := "user", exp := 9 }
           (by decide) (by decide) (by decide) (by decide),
         h.2.1,
         h.2.2 "Bearer".toList (by decide)⟩

end CarWebsite
